import Mathlib

/-!
Shallow embedding of the Modbus RTU client layer of the ammonia-monitor
repository (`src/modbus/modbus_client.py`), together with theorems checking
the natural-language specification against it.

Numeric values are modelled as rationals; the serial transport and the
devices on the bus are modelled as an explicit environment (`Env`) giving the
outcome of each bus operation; the mutable fields of `ModbusRTUClient`
(`connected`, `instrument`, `devices`) are an explicit state (`ClientState`)
threaded through every operation, and each operation also returns the list of
transport-level calls it performed (`TCall`), so that frame conditions
("no I/O happened") are provable.
-/

namespace Monitor

/-- The four Modbus register types of `RegisterType` in the source
(`COIL = 1`, `DISCRETE_INPUT = 2`, `HOLDING_REGISTER = 3`,
`INPUT_REGISTER = 4`). -/
inductive RegisterType where
  | coil
  | discreteInput
  | holdingRegister
  | inputRegister
deriving DecidableEq

/-- The numeric value of each `RegisterType` enum member in the source. -/
def RegisterType.code : RegisterType → Int
  | .coil => 1
  | .discreteInput => 2
  | .holdingRegister => 3
  | .inputRegister => 4

/-- Python `RegisterType(n)`: the enum member with value `n`, when it
exists; `none` models the `ValueError` the enum constructor raises
otherwise. -/
def RegisterType.fromCode (n : Int) : Option RegisterType :=
  if n = 1 then some .coil
  else if n = 2 then some .discreteInput
  else if n = 3 then some .holdingRegister
  else if n = 4 then some .inputRegister
  else none

/-- The read function code the source uses for each register type
(`read_bit functioncode=1/2`, `read_register functioncode=3/4`). -/
def RegisterType.readFunctionCode : RegisterType → Nat
  | .coil => 1
  | .discreteInput => 2
  | .holdingRegister => 3
  | .inputRegister => 4

/-- Embeds `ModbusDeviceConfig` of the source: configuration of one device. -/
structure ModbusDeviceConfig where
  name : String
  address : Nat
  register : Nat
  register_type : RegisterType
  unit : String := "ppm"
  scale : ℚ := 1
  offset : ℚ := 0
  description : String := ""
  min_value : ℚ := 0
  max_value : ℚ := 100
  warning_threshold : ℚ := 70
  alarm_threshold : ℚ := 90
deriving DecidableEq

/-- The status strings the source produces: `_get_status` returns
`normal`, `alerta` (warning) or `alarme` (alarm), and `read_all_devices`
marks failed reads `erro` (error). -/
inductive Status where
  | normal
  | alerta
  | alarme
  | erro
deriving DecidableEq

/-- Severity order on statuses: normal < alerta (warning) < alarme (alarm);
`erro` sits outside the classification and is never produced by
`get_status`. -/
def severity : Status → Nat
  | .normal => 0
  | .alerta => 1
  | .alarme => 2
  | .erro => 3

/-- Embeds `ModbusRTUClient._get_status` of the source: `value >= alarm_threshold`
gives `alarme`, else `value >= warning_threshold` gives `alerta`, else
`normal`. -/
def get_status (device : ModbusDeviceConfig) (value : ℚ) : Status :=
  if value ≥ device.alarm_threshold then .alarme
  else if value ≥ device.warning_threshold then .alerta
  else .normal

/-- Outcome of one transport-level bus operation, as seen by the client
code: success with a decoded value, `minimalmodbus.NoResponseError`,
`minimalmodbus.InvalidResponseError`, or any other exception. -/
inductive Outcome where
  | ok (v : ℚ)
  | noResponse
  | invalidResponse
  | otherError
deriving DecidableEq

/-- The environment: behaviour of the serial port and of the devices on the
bus. `openOk` tells whether creating the `minimalmodbus.Instrument` (opening
the port) succeeds; `read a r fc` / `write a r v fc` give the outcome of a
bus read / write at device address `a`, register `r`, function code `fc`. -/
structure Env where
  openOk : Bool
  read : Nat → Nat → Nat → Outcome
  write : Nat → Nat → Int → Nat → Outcome

/-- The mutable fields of the `minimalmodbus.Instrument` the client touches:
the slave `address` and the serial per-call `timeout`. -/
structure Instr where
  address : Nat
  timeout : ℚ
deriving DecidableEq

/-- The mutable state of a `ModbusRTUClient`: the `connected` flag, the
`instrument` (with its serial settings) or `None`, and the `devices`
registry (a Python dict from address to config, modelled as an
insertion-ordered association list). -/
structure ClientState where
  connected : Bool
  instrument : Option Instr
  devices : List (Nat × ModbusDeviceConfig)
deriving DecidableEq

/-- One transport-level call, as a spy on the transport would record it:
closing the port, opening the port, a bus read, or a bus write.  Bus calls
record the serial timeout in effect when they were issued. -/
inductive TCall where
  | closePort
  | openPort
  | busRead (address register fc : Nat) (timeout : ℚ)
  | busWrite (address register fc : Nat) (value : Int) (timeout : ℚ)
deriving DecidableEq

/-- The serial timeout a transport call was issued with (`none` for
open/close). -/
def TCall.timeoutOf : TCall → Option ℚ
  | .closePort => none
  | .openPort => none
  | .busRead _ _ _ t => some t
  | .busWrite _ _ _ _ t => some t

/-- The bus operations (reads and writes) of a trace, open/close dropped. -/
def busCalls (t : List TCall) : List TCall :=
  t.filter fun c => match c with
    | .busRead _ _ _ _ => true
    | .busWrite _ _ _ _ _ => true
    | _ => false

/-- The probe loop inside `connect`: for each candidate address set
`instrument.address` and try `read_register(0, functioncode=4)`; any
exception continues to the next candidate, the first success stops the
loop.  Returns whether some probe succeeded, the instrument state after the
loop, and the calls made. -/
def probeLoop (env : Env) : Instr → List Nat → Bool × Instr × List TCall
  | i, [] => (false, i, [])
  | i, a :: rest =>
    let i' : Instr := { i with address := a }
    let call := TCall.busRead a 0 4 i'.timeout
    match env.read a 0 4 with
    | .ok _ => (true, i', [call])
    | _ =>
      let r := probeLoop env i' rest
      (r.1, r.2.1, call :: r.2.2)

/-- Embeds `ModbusRTUClient.connect` of the source.  If already connected with an
instrument, returns `True` at once.  Otherwise: `disconnect()` (closes the
port if an instrument exists, clearing `connected`), then creates the
instrument (opens the port; on failure `connected = False` and `False` is
returned), sets the serial parameters with timeout 1.0, and probes
candidate addresses 1–5 in order with a read of input register 0, function
code 4; the first valid response stops the probing.  Whether or not any
candidate answered, `connected` is set to `True` and `True` is returned. -/
def connect (env : Env) (s : ClientState) : Bool × ClientState × List TCall :=
  if s.connected && s.instrument.isSome then (true, s, [])
  else
    let closeTrace : List TCall :=
      match s.instrument with
      | some _ => [TCall.closePort]
      | none => []
    let s₀ : ClientState :=
      match s.instrument with
      | some _ => { s with connected := false }
      | none => s
    if env.openOk then
      let i : Instr := { address := 1, timeout := 1 }
      let r := probeLoop env i [1, 2, 3, 4, 5]
      (true, { s₀ with connected := true, instrument := some r.2.1 },
        closeTrace ++ TCall.openPort :: r.2.2)
    else
      (false, { s₀ with connected := false }, closeTrace ++ [TCall.openPort])

/-- Embeds `ModbusRTUClient.add_device` of the source: `self.devices[address] =
device`; a duplicate address overwrites in place (Python dict semantics),
a fresh address appends. -/
def add_device (s : ClientState) (device : ModbusDeviceConfig) : ClientState :=
  { s with devices :=
      if s.devices.any (fun p => p.1 = device.address) then
        s.devices.map (fun p => if p.1 = device.address then (p.1, device) else p)
      else
        s.devices ++ [(device.address, device)] }

/-- The `register_type` argument of `read_register`/`write_register` as the
source accepts it: either an actual `RegisterType`, or some other value that
the code passes to the `RegisterType(...)` enum constructor. -/
inductive RTArg where
  | rt (r : RegisterType)
  | code (n : Int)
deriving DecidableEq

/-- Whether an `RTArg` converts to a `RegisterType` without raising. -/
def RTArg.valid : RTArg → Bool
  | .rt _ => true
  | .code n => (RegisterType.fromCode n).isSome

/-- The conversion at the top of `read_register`/`write_register`:
`if not isinstance(register_type, RegisterType): register_type =
RegisterType(register_type)`; `none` models the `ValueError` escaping. -/
def RTArg.convert : RTArg → Option RegisterType
  | .rt r => some r
  | .code n => RegisterType.fromCode n

/-- Embeds `ModbusRTUClient.read_register` of the source.  If not connected (or no
instrument), tries `connect()` first and returns `None` if that fails.  Then
converts `register_type` through the enum constructor — this happens outside
the `try`, so a bad value raises (`Except.error`) to the caller.  Then sets
`instrument.address`, and inside `try`/`finally`: saves the serial timeout,
overrides it to 1.0, issues the read with the function code of the register
type, and maps the outcome: success to `some value`, `NoResponseError` to
`None` with `connected = False`, `InvalidResponseError` to `None` leaving
`connected` untouched, any other exception to `None` with
`connected = False`; the `finally` restores the saved timeout on every
path. -/
def read_register (env : Env) (s : ClientState) (address register : Nat)
    (rta : RTArg) : Except String (Option ℚ) × ClientState × List TCall :=
  let step1 : Bool × ClientState × List TCall :=
    if !s.connected || s.instrument.isNone then connect env s else (true, s, [])
  let okc := step1.1
  let s₁ := step1.2.1
  let t₁ := step1.2.2
  if !okc then (Except.ok none, s₁, t₁)
  else
    match rta.convert with
    | none => (Except.error "ValueError", s₁, t₁)
    | some rt =>
      match s₁.instrument with
      | none => (Except.error "AttributeError", s₁, t₁)
      | some i₀ =>
        let i₁ : Instr := { i₀ with address := address }
        let original := i₁.timeout
        let i₂ : Instr := { i₁ with timeout := 1 }
        let fc := rt.readFunctionCode
        let call := TCall.busRead address register fc i₂.timeout
        let iEnd : Instr := { i₂ with timeout := original }
        match env.read address register fc with
        | .ok v =>
          (Except.ok (some v), { s₁ with instrument := some iEnd }, t₁ ++ [call])
        | .noResponse =>
          (Except.ok none,
            { s₁ with connected := false, instrument := some iEnd }, t₁ ++ [call])
        | .invalidResponse =>
          (Except.ok none, { s₁ with instrument := some iEnd }, t₁ ++ [call])
        | .otherError =>
          (Except.ok none,
            { s₁ with connected := false, instrument := some iEnd }, t₁ ++ [call])

/-- Round-half-to-even to an integer, the tie-breaking rule of Python
`round`. -/
def roundHalfEven (q : ℚ) : ℤ :=
  let f := ⌊q⌋
  let r := q - f
  if r < 1 / 2 then f
  else if 1 / 2 < r then f + 1
  else if f % 2 = 0 then f else f + 1

/-- Python `round(x, 2)`: round to two decimal places, ties to even. -/
def round2 (x : ℚ) : ℚ := (roundHalfEven (100 * x) : ℚ) / 100

/-- Embeds `ModbusRTUClient.read_device` of the source: reads the raw value via
`read_register` with the device's address, register and register type; on
success computes `scaled = raw * scale + offset` and returns
`round(scaled, 2)`.  The min/max range check only logs a warning — the
rounded value is returned unchanged whether or not it is in range.  Any
failure yields `None`. -/
def read_device (env : Env) (s : ClientState) (device : ModbusDeviceConfig) :
    Option ℚ × ClientState × List TCall :=
  let r := read_register env s device.address device.register (.rt device.register_type)
  match r.1 with
  | .error _ => (none, r.2.1, r.2.2)
  | .ok none => (none, r.2.1, r.2.2)
  | .ok (some raw) =>
    let scaled := raw * device.scale + device.offset
    (some (round2 scaled), r.2.1, r.2.2)

/-- One entry of the dictionary `read_all_devices` builds per device:
`name`, `value` (absent on failure), `unit` and `status` (`erro` exactly
when the read failed).  The wall-clock `timestamp` field is outside the
embedding. -/
structure Reading where
  name : String
  value : Option ℚ
  unit : String
  status : Status
deriving DecidableEq

/-- The loop body of `read_all_devices`, threading the client state through
the per-device reads in registry order. -/
def readAllGo (env : Env) : ClientState → List (Nat × ModbusDeviceConfig) →
    List (Nat × Reading) × ClientState × List TCall
  | s, [] => ([], s, [])
  | s, (addr, device) :: rest =>
    let r := read_device env s device
    let reading : Reading :=
      { name := device.name
        value := r.1
        unit := device.unit
        status := match r.1 with
          | some v => get_status device v
          | none => .erro }
    let rs := readAllGo env r.2.1 rest
    ((addr, reading) :: rs.1, rs.2.1, r.2.2 ++ rs.2.2)

/-- Embeds `ModbusRTUClient.read_all_devices` of the source: one entry per
registered device, in registry (insertion) order, each read via
`read_device` and classified via `_get_status`, with status `erro` and no
value when the read failed. -/
def read_all_devices (env : Env) (s : ClientState) :
    List (Nat × Reading) × ClientState × List TCall :=
  readAllGo env s s.devices

/-- Modelled from the spec: the `allFailed` poll flag.  The source returns
no explicit boolean — the all-failed condition of a poll result is that
every returned reading has status `erro`, which is what this derived flag
computes. -/
def allFailed (rs : List (Nat × Reading)) : Bool :=
  rs.all fun p => p.2.status = .erro

/-- Embeds `ModbusRTUClient.write_register` of the source (the second definition
in the class body, which is the one Python keeps).  Reconnect-if-needed
first (returning `False` if that fails), then the enum conversion (outside
the `try`: a bad value raises), then sets `instrument.address`, and inside
`try`/`finally`: saves the timeout and overrides it to 1.0; a `COIL` write
issues `write_bit` with function code 5 and `bool(value)`, a
`HOLDING_REGISTER` write issues `write_register` with function code 6; any
other register type logs an error and returns `False` without touching the
bus.  `NoResponseError` and other exceptions clear `connected`;
`InvalidResponseError` returns `False` leaving `connected` untouched; the
`finally` restores the timeout on every path. -/
def write_register (env : Env) (s : ClientState) (address register : Nat)
    (value : Int) (rta : RTArg) : Except String Bool × ClientState × List TCall :=
  let step1 : Bool × ClientState × List TCall :=
    if !s.connected || s.instrument.isNone then connect env s else (true, s, [])
  let okc := step1.1
  let s₁ := step1.2.1
  let t₁ := step1.2.2
  if !okc then (Except.ok false, s₁, t₁)
  else
    match rta.convert with
    | none => (Except.error "ValueError", s₁, t₁)
    | some rt =>
      match s₁.instrument with
      | none => (Except.error "AttributeError", s₁, t₁)
      | some i₀ =>
        let i₁ : Instr := { i₀ with address := address }
        let original := i₁.timeout
        let i₂ : Instr := { i₁ with timeout := 1 }
        let iEnd : Instr := { i₂ with timeout := original }
        match rt with
        | .discreteInput | .inputRegister =>
          (Except.ok false, { s₁ with instrument := some iEnd }, t₁)
        | .coil =>
          let v : Int := if value = 0 then 0 else 1
          let call := TCall.busWrite address register 5 v i₂.timeout
          match env.write address register v 5 with
          | .ok _ => (Except.ok true, { s₁ with instrument := some iEnd }, t₁ ++ [call])
          | .noResponse =>
            (Except.ok false,
              { s₁ with connected := false, instrument := some iEnd }, t₁ ++ [call])
          | .invalidResponse =>
            (Except.ok false, { s₁ with instrument := some iEnd }, t₁ ++ [call])
          | .otherError =>
            (Except.ok false,
              { s₁ with connected := false, instrument := some iEnd }, t₁ ++ [call])
        | .holdingRegister =>
          let call := TCall.busWrite address register 6 value i₂.timeout
          match env.write address register value 6 with
          | .ok _ => (Except.ok true, { s₁ with instrument := some iEnd }, t₁ ++ [call])
          | .noResponse =>
            (Except.ok false,
              { s₁ with connected := false, instrument := some iEnd }, t₁ ++ [call])
          | .invalidResponse =>
            (Except.ok false, { s₁ with instrument := some iEnd }, t₁ ++ [call])
          | .otherError =>
            (Except.ok false,
              { s₁ with connected := false, instrument := some iEnd }, t₁ ++ [call])

/-- The errors `scan_devices` raises before starting the sweep, in the order
the source checks them: `ModbusException` when not connected, `ValueError`
for each address-range violation, and the attribute error Python would
raise reading `instrument.serial.timeout` with no instrument. -/
inductive ScanError where
  | notConnected
  | invalidStart
  | invalidEnd
  | startGreaterThanEnd
  | attributeError
deriving DecidableEq

/-- The sweep loop of `scan_devices`: for each address set
`instrument.address` and read input register 0 with function code 4; a
success or an `InvalidResponseError` includes the address, a
`NoResponseError` or any other exception skips it. -/
def scanLoop (env : Env) : Instr → List Nat → List Nat × Instr × List TCall
  | i, [] => ([], i, [])
  | i, a :: rest =>
    let i' : Instr := { i with address := a }
    let call := TCall.busRead a 0 4 i'.timeout
    let r := scanLoop env i' rest
    match env.read a 0 4 with
    | .ok _ => (a :: r.1, r.2.1, call :: r.2.2)
    | .noResponse => (r.1, r.2.1, call :: r.2.2)
    | .invalidResponse => (a :: r.1, r.2.1, call :: r.2.2)
    | .otherError => (r.1, r.2.1, call :: r.2.2)

/-- Embeds `ModbusRTUClient.scan_devices` of the source.  Raises `ModbusException`
if not connected, then `ValueError` if either bound is outside `[1, 247]`
or `start > end`, all before touching the transport.  Otherwise saves the
serial timeout, overrides it to 0.2 s, sweeps the inclusive address range
with the classification of `scanLoop`, and the `finally` restores the
original timeout; the list of found addresses is returned. -/
def scan_devices (env : Env) (s : ClientState)
    (start_address end_address : Nat) :
    Except ScanError (List Nat) × ClientState × List TCall :=
  if !s.connected then (Except.error .notConnected, s, [])
  else if !(1 ≤ start_address && start_address ≤ 247) then
    (Except.error .invalidStart, s, [])
  else if !(1 ≤ end_address && end_address ≤ 247) then
    (Except.error .invalidEnd, s, [])
  else if start_address > end_address then
    (Except.error .startGreaterThanEnd, s, [])
  else
    match s.instrument with
    | none => (Except.error .attributeError, s, [])
    | some i₀ =>
      let original := i₀.timeout
      let i₁ : Instr := { i₀ with timeout := 1 / 5 }
      let addrs := List.range' start_address (end_address + 1 - start_address)
      let r := scanLoop env i₁ addrs
      (Except.ok r.1, { s with instrument := some { r.2.1 with timeout := original } },
        r.2.2)

/-- A concrete device configuration used to instantiate C1: the defaults of
`ModbusDeviceConfig` (warning threshold 70, alarm threshold 90). -/
def devC1 : ModbusDeviceConfig :=
  { name := "s1", address := 1, register := 0, register_type := .inputRegister }

/-- Whether a probe of `connect` counts an address as answering: only a
successful read does (every error is an exception and moves to the next
candidate). -/
def probeOk (env : Env) (a : Nat) : Bool :=
  match env.read a 0 4 with
  | .ok _ => true
  | _ => false

/-- The candidate addresses `connect` actually probes: the prefix of
`[1, 2, 3, 4, 5]` up to and including the first one that answers. -/
def probedAddresses (env : Env) : List Nat :=
  [1, 2, 3, 4, 5].takeWhile (fun a => !probeOk env a) ++
    ([1, 2, 3, 4, 5].dropWhile (fun a => !probeOk env a)).take 1

/-- Whether a scan outcome includes the probed address: a successful read
or an invalid (malformed) response does, no response or any other
exception does not. -/
def scanIncluded : Outcome → Bool
  | .ok _ => true
  | .invalidResponse => true
  | .noResponse => false
  | .otherError => false

/-- Modelled from the spec: `clamp(x, min, max)`, the normalization the
spec prescribes for poll values. -/
def clampSpec (x lo hi : ℚ) : ℚ := max lo (min x hi)

/-- Device for the C2 counterexample: identity scaling, range `[0, 100]`. -/
def devC2 : ModbusDeviceConfig :=
  { name := "nh3", address := 1, register := 0, register_type := .inputRegister
    scale := 1, offset := 0, min_value := 0, max_value := 100 }

/-- Environment for the C2 counterexample: every read yields raw value
2000, far above the device's `max_value`. -/
def envC2 : Env :=
  { openOk := true
    read := fun _ _ _ => .ok 2000
    write := fun _ _ _ _ => .ok 0 }

/-- Connected client state for the C2 counterexample. -/
def stC2 : ClientState :=
  { connected := true, instrument := some { address := 1, timeout := 1 }, devices := [] }

/-- Device for the C2 witness: scale 1/2, offset 3. -/
def devC2w : ModbusDeviceConfig :=
  { name := "nh3", address := 2, register := 5, register_type := .holdingRegister
    scale := 1 / 2, offset := 3, min_value := 0, max_value := 100 }

/-- Environment for the C2 witness: every read yields raw value 7. -/
def envC2w : Env :=
  { openOk := true
    read := fun _ _ _ => .ok 7
    write := fun _ _ _ _ => .ok 0 }

/-- Instrument for the C2 witness. -/
def instrC2w : Instr := { address := 1, timeout := 1 }

/-- Connected client state for the C2 witness. -/
def stC2w : ClientState :=
  { connected := true, instrument := some instrC2w, devices := [] }

/-- Environment for the C8 witness (never consulted: the scan fails before
any I/O). -/
def envC8 : Env :=
  { openOk := true
    read := fun _ _ _ => .ok 1
    write := fun _ _ _ _ => .ok 0 }

/-- Disconnected client state for the C8 witness. -/
def stC8 : ClientState :=
  { connected := false, instrument := some { address := 1, timeout := 1 }, devices := [] }

/-- Environment for the C9 witness: reads time out, writes succeed. -/
def envC9 : Env :=
  { openOk := true
    read := fun _ _ _ => .noResponse
    write := fun _ _ _ _ => .ok 0 }

/-- Instrument for the C9 witness, with a distinctive prior timeout of 3 s
so that restoration is visible. -/
def instrC9 : Instr := { address := 1, timeout := 3 }

/-- Connected client state for the C9 witness. -/
def stC9 : ClientState :=
  { connected := true, instrument := some instrC9, devices := [] }

/-- Environment for C3: on the bus, only address 3 answers a read of input
register 0 with a valid frame and address 7 with a malformed frame; every
other address stays silent. -/
def envC3 : Env :=
  { openOk := true
    read := fun a _ _ =>
      if a = 3 then .ok 42 else if a = 7 then .invalidResponse else .noResponse
    write := fun _ _ _ _ => .noResponse }

/-- Instrument for the C3 witness. -/
def instrC3 : Instr := { address := 1, timeout := 1 }

/-- Connected client state for the C3 witness. -/
def stC3 : ClientState :=
  { connected := true, instrument := some instrC3, devices := [] }

/-- Environment for the C4 counterexample: every bus read and write gets a
malformed (invalid) response. -/
def envC4 : Env :=
  { openOk := true
    read := fun _ _ _ => .invalidResponse
    write := fun _ _ _ _ => .invalidResponse }

/-- Connected client state for the C4 counterexample. -/
def stC4 : ClientState :=
  { connected := true, instrument := some { address := 1, timeout := 1 }, devices := [] }

/-- Environment for the C4 witness: no device ever answers. -/
def envC4n : Env :=
  { openOk := true
    read := fun _ _ _ => .noResponse
    write := fun _ _ _ _ => .noResponse }

/-- Instrument for the C4 witness. -/
def instrC4n : Instr := { address := 1, timeout := 1 }

/-- Connected client state for the C4 witness. -/
def stC4n : ClientState :=
  { connected := true, instrument := some instrC4n, devices := [] }

/-- Environment for the C5 counterexample: the port opens, probe reads go
unanswered, writes would succeed. -/
def envC5 : Env :=
  { openOk := true
    read := fun _ _ _ => .noResponse
    write := fun _ _ _ _ => .ok 0 }

/-- Disconnected client state (no instrument) for the C5 counterexample. -/
def stC5 : ClientState :=
  { connected := false, instrument := none, devices := [] }

/-- Environment for the C5 witness. -/
def envC5w : Env :=
  { openOk := true
    read := fun _ _ _ => .ok 1
    write := fun _ _ _ _ => .ok 0 }

/-- Instrument for the C5 witness, prior timeout 2 s. -/
def instrC5w : Instr := { address := 9, timeout := 2 }

/-- Connected client state for the C5 witness. -/
def stC5w : ClientState :=
  { connected := true, instrument := some instrC5w, devices := [] }

/-- Environment for the C6 witness: the port opens, and of the candidate
addresses only address 3 answers a probe. -/
def envC6 : Env :=
  { openOk := true
    read := fun a _ _ => if a = 3 then .ok 5 else .noResponse
    write := fun _ _ _ _ => .noResponse }

/-- Disconnected client state (no instrument) for the C6 witness. -/
def stC6 : ClientState :=
  { connected := false, instrument := none, devices := [] }

/-- First registered device for the C7 witness. -/
def devC7a : ModbusDeviceConfig :=
  { name := "d1", address := 1, register := 0, register_type := .inputRegister }

/-- Second registered device for the C7 witness. -/
def devC7b : ModbusDeviceConfig :=
  { name := "d2", address := 2, register := 0, register_type := .inputRegister }

/-- Third registered device for the C7 witness. -/
def devC7c : ModbusDeviceConfig :=
  { name := "d3", address := 3, register := 0, register_type := .inputRegister }

/-- Environment for the C7 witness: the transport fails every call (no
device ever answers), though the port itself opens. -/
def envC7 : Env :=
  { openOk := true
    read := fun _ _ _ => .noResponse
    write := fun _ _ _ _ => .noResponse }

/-- Connected client state with three registered devices for the C7
witness. -/
def stC7 : ClientState :=
  { connected := true
    instrument := some { address := 1, timeout := 1 }
    devices := [(1, devC7a), (2, devC7b), (3, devC7c)] }

/-- Environment for C10: devices answer reads with value 11 and accept
writes. -/
def envC10 : Env :=
  { openOk := true
    read := fun _ _ _ => .ok 11
    write := fun _ _ _ _ => .ok 0 }

/-- Connected client state for C10. -/
def stC10 : ClientState :=
  { connected := true, instrument := some { address := 1, timeout := 1 }, devices := [] }

/- ------------------------------------------------------------------
Helper lemmas about the loops of the embedding.
------------------------------------------------------------------ -/

theorem probeLoop_timeout (env : Env) :
    ∀ (l : List Nat) (i : Instr), ((probeLoop env i l).2.1).timeout = i.timeout := by
  intro l
  induction l with
  | nil => intro i; rfl
  | cons a rest ih =>
    intro i
    cases h : env.read a 0 4 <;> simp [probeLoop, h, ih]

theorem probeLoop_trace (env : Env) :
    ∀ (l : List Nat) (i : Instr),
      (probeLoop env i l).2.2 =
        (l.takeWhile (fun a => !probeOk env a) ++
            (l.dropWhile (fun a => !probeOk env a)).take 1).map
          (fun a => TCall.busRead a 0 4 i.timeout) := by
  intro l
  induction l with
  | nil => intro i; rfl
  | cons a rest ih =>
    intro i
    cases h : env.read a 0 4 <;>
      simp [probeLoop, probeOk, h, ih, List.takeWhile_cons, List.dropWhile_cons]

theorem connect_instrument_isSome (env : Env) (s : ClientState)
    (h : (connect env s).1 = true) : ((connect env s).2.1).instrument.isSome = true := by
  unfold connect at *
  by_cases hc : (s.connected && s.instrument.isSome) = true
  · simp only [hc, if_true] at h ⊢
    exact (Bool.and_elim_right hc)
  · simp only [hc] at h ⊢
    by_cases ho : env.openOk = true
    · simp [ho] at h ⊢
    · simp [ho] at h

theorem scanLoop_found (env : Env) :
    ∀ (l : List Nat) (i : Instr),
      (scanLoop env i l).1 = l.filter (fun a => scanIncluded (env.read a 0 4)) := by
  intro l
  induction l with
  | nil => intro i; rfl
  | cons a rest ih =>
    intro i
    cases h : env.read a 0 4 <;> simp [scanLoop, scanIncluded, h, ih]

theorem scanLoop_timeout (env : Env) :
    ∀ (l : List Nat) (i : Instr), ((scanLoop env i l).2.1).timeout = i.timeout := by
  intro l
  induction l with
  | nil => intro i; rfl
  | cons a rest ih =>
    intro i
    cases h : env.read a 0 4 <;> simp [scanLoop, h, ih]

theorem scanLoop_trace_timeout (env : Env) :
    ∀ (l : List Nat) (i : Instr),
      ∀ c ∈ (scanLoop env i l).2.2, c.timeoutOf = some i.timeout := by
  intro l
  induction l with
  | nil => intro i c hc; simp [scanLoop] at hc
  | cons a rest ih =>
    intro i c hc
    cases h : env.read a 0 4 <;>
      · simp [scanLoop, h] at hc
        rcases hc with hc | hc
        · subst hc; rfl
        · exact ih { i with address := a } c hc

theorem get_status_ne_erro (d : ModbusDeviceConfig) (v : ℚ) :
    get_status d v ≠ .erro := by
  unfold get_status
  split_ifs <;> simp

theorem busCalls_append (t₁ t₂ : List TCall) :
    busCalls (t₁ ++ t₂) = busCalls t₁ ++ busCalls t₂ := by
  simp [busCalls]

theorem busCalls_closePort (t : List TCall) :
    busCalls (TCall.closePort :: t) = busCalls t := rfl

theorem busCalls_openPort (t : List TCall) :
    busCalls (TCall.openPort :: t) = busCalls t := rfl

theorem busCalls_map_busRead (l : List Nat) (t : ℚ) :
    busCalls (l.map fun a => TCall.busRead a 0 4 t) =
      l.map fun a => TCall.busRead a 0 4 t := by
  induction l with
  | nil => rfl
  | cons a rest ih => simpa [busCalls, List.filter_cons] using ih

theorem busCalls_take_map_busRead (n : Nat) (l : List Nat) (t : ℚ) :
    busCalls (List.take n (l.map fun a => TCall.busRead a 0 4 t)) =
      List.take n (l.map fun a => TCall.busRead a 0 4 t) := by
  rw [← List.map_take]
  exact busCalls_map_busRead _ t

theorem readAllGo_fst (env : Env) :
    ∀ (l : List (Nat × ModbusDeviceConfig)) (s : ClientState),
      ((readAllGo env s l).1).map Prod.fst = l.map Prod.fst := by
  intro l
  induction l with
  | nil => intro s; rfl
  | cons p rest ih =>
    intro s
    obtain ⟨addr, device⟩ := p
    simp [readAllGo, ih]

theorem readAllGo_status (env : Env) :
    ∀ (l : List (Nat × ModbusDeviceConfig)) (s : ClientState),
      ∀ p ∈ (readAllGo env s l).1, (p.2.status = Status.erro ↔ p.2.value = none) := by
  intro l
  induction l with
  | nil => intro s p hp; simp [readAllGo] at hp
  | cons q rest ih =>
    intro s p hp
    obtain ⟨addr, device⟩ := q
    simp only [readAllGo, List.mem_cons] at hp
    rcases hp with hp | hp
    · subst hp
      cases hv : (read_device env s device).1 with
      | none => simp [hv]
      | some v => simp [hv, get_status_ne_erro]
    · exact ih _ p hp

/- ------------------------------------------------------------------
C1: the alert classifier.
------------------------------------------------------------------ -/

/-- C1: for every device and value, `_get_status` returns `alarme` when
`value >= alarm_threshold`, otherwise `alerta` when
`value >= warning_threshold`, otherwise `normal`; the boundary is inclusive
on the higher-severity side (`get_status d d.alarm_threshold = alarme`);
and for a fixed device the severity is monotonically non-decreasing in the
value. -/
theorem C1_classifier (d : ModbusDeviceConfig) (v v₁ v₂ : ℚ) (h : v₁ ≤ v₂) :
    get_status d v =
      (if v ≥ d.alarm_threshold then Status.alarme
       else if v ≥ d.warning_threshold then Status.alerta
       else Status.normal)
    ∧ get_status d d.alarm_threshold = Status.alarme
    ∧ severity (get_status d v₁) ≤ severity (get_status d v₂) := by
  refine ⟨rfl, ?_, ?_⟩
  · simp [get_status]
  · unfold get_status
    split_ifs <;> simp [severity] <;> linarith

/-- Witness for C1 at a concrete device and values. -/
theorem C1_classifier_witness :
    ((10 : ℚ) ≤ 80)
    ∧ (get_status devC1 75 =
        (if (75 : ℚ) ≥ devC1.alarm_threshold then Status.alarme
         else if (75 : ℚ) ≥ devC1.warning_threshold then Status.alerta
         else Status.normal)
       ∧ get_status devC1 devC1.alarm_threshold = Status.alarme
       ∧ severity (get_status devC1 10) ≤ severity (get_status devC1 80)) := by
  exact ⟨by norm_num, C1_classifier devC1 75 10 80 (by norm_num)⟩

/- ------------------------------------------------------------------
C2: poll-value normalization.
------------------------------------------------------------------ -/

/-- C2 counterexample: with scale 1 > 0 and raw value 2000 ≥ 0 read
successfully, `read_device` returns 2000 — not
`clamp(raw*scale+offset, min, max) = 100` — and the result lies outside
`[min_value, max_value]`: the source never clamps, it only logs
out-of-range values. -/
theorem C2_clamp_counterexample :
    (0 : ℚ) < devC2.scale
    ∧ (0 : ℚ) ≤ 2000
    ∧ envC2.read devC2.address devC2.register devC2.register_type.readFunctionCode =
        Outcome.ok 2000
    ∧ (read_device envC2 stC2 devC2).1 = some 2000
    ∧ clampSpec (2000 * devC2.scale + devC2.offset) devC2.min_value devC2.max_value = 100
    ∧ (read_device envC2 stC2 devC2).1 ≠
        some (clampSpec (2000 * devC2.scale + devC2.offset) devC2.min_value devC2.max_value)
    ∧ ¬ (2000 : ℚ) ≤ devC2.max_value := by
  refine ⟨by norm_num [devC2], by norm_num, rfl, ?_, ?_, ?_, by norm_num [devC2]⟩
  · norm_num [read_device, read_register, envC2, stC2, devC2, RTArg.convert,
      RegisterType.readFunctionCode, round2, roundHalfEven]
  · norm_num [clampSpec, devC2]
  · norm_num [read_device, read_register, envC2, stC2, devC2, RTArg.convert,
      RegisterType.readFunctionCode, round2, roundHalfEven, clampSpec]

/-- C2 (amended): for every device whose read succeeds with raw value
`raw` (scale > 0, raw ≥ 0), the value `read_device` returns is
`round(raw * scale + offset, 2)` — scale and offset applied and rounded to
two decimals, with no clamping to `[min_value, max_value]`. -/
theorem C2_normalization (env : Env) (s : ClientState) (i : Instr)
    (d : ModbusDeviceConfig) (raw : ℚ)
    (hc : s.connected = true) (hi : s.instrument = some i)
    (hr : env.read d.address d.register d.register_type.readFunctionCode =
      Outcome.ok raw)
    (hs : 0 < d.scale) (h0 : 0 ≤ raw) :
    (read_device env s d).1 = some (round2 (raw * d.scale + d.offset)) := by
  simp [read_device, read_register, hc, hi, hr, RTArg.convert]

/-- Witness for C2 (amended) at a concrete device, raw value 7, scale 1/2,
offset 3. -/
theorem C2_normalization_witness :
    stC2w.connected = true
    ∧ stC2w.instrument = some instrC2w
    ∧ envC2w.read devC2w.address devC2w.register devC2w.register_type.readFunctionCode =
        Outcome.ok 7
    ∧ (0 : ℚ) < devC2w.scale
    ∧ (0 : ℚ) ≤ 7
    ∧ (read_device envC2w stC2w devC2w).1 = some (round2 (7 * devC2w.scale + devC2w.offset)) :=
  ⟨rfl, rfl, rfl, by norm_num [devC2w], by norm_num,
    C2_normalization envC2w stC2w instrC2w devC2w 7 rfl rfl rfl
      (by norm_num [devC2w]) (by norm_num)⟩

/- ------------------------------------------------------------------
C8: scan precondition.
------------------------------------------------------------------ -/

/-- C8: invoking `scan_devices` while not connected fails with the
not-connected error before probing any address: the result is exactly that
error, the client state (including the instrument and its timeout) is
unchanged, and the transport trace is empty. -/
theorem C8_scan_not_connected (env : Env) (s : ClientState) (start e : Nat)
    (h : s.connected = false) :
    scan_devices env s start e = (Except.error ScanError.notConnected, s, []) := by
  simp [scan_devices, h]

/-- Witness for C8 at a concrete disconnected client. -/
theorem C8_scan_not_connected_witness :
    stC8.connected = false
    ∧ scan_devices envC8 stC8 1 10 = (Except.error ScanError.notConnected, stC8, []) :=
  ⟨rfl, C8_scan_not_connected envC8 stC8 1 10 rfl⟩

/- ------------------------------------------------------------------
C9: scoped timeout override.
------------------------------------------------------------------ -/

/-- C9: on a connected client, every bus call a read or write issues
carries the overridden per-call timeout of 1.0 s, every bus call a scan
issues carries 0.2 s, and after each of the three operations the serial
timeout equals its value before the operation — the `finally` blocks
restore it on success, error return and exception alike. -/
theorem C9_timeout_scoping (env : Env) (s : ClientState) (i : Instr)
    (address register : Nat) (value : Int) (rta : RTArg) (start e : Nat)
    (hc : s.connected = true) (hi : s.instrument = some i) :
    (((read_register env s address register rta).2.1).instrument.map Instr.timeout =
        some i.timeout
      ∧ ∀ c ∈ (read_register env s address register rta).2.2, c.timeoutOf = some 1)
    ∧ (((write_register env s address register value rta).2.1).instrument.map Instr.timeout =
        some i.timeout
      ∧ ∀ c ∈ (write_register env s address register value rta).2.2, c.timeoutOf = some 1)
    ∧ (((scan_devices env s start e).2.1).instrument.map Instr.timeout = some i.timeout
      ∧ ∀ c ∈ (scan_devices env s start e).2.2, c.timeoutOf = some (1 / 5)) := by
  refine ⟨?_, ?_, ?_⟩
  · cases hrt : rta.convert with
    | none => simp [read_register, hc, hi, hrt]
    | some rt =>
      cases ho : env.read address register rt.readFunctionCode <;>
        simp [read_register, hc, hi, hrt, ho, TCall.timeoutOf]
  · cases hrt : rta.convert with
    | none => simp [write_register, hc, hi, hrt]
    | some rt =>
      cases rt with
      | coil =>
        cases ho : env.write address register (if value = 0 then 0 else 1) 5 <;>
          simp [write_register, hc, hi, hrt, ho, TCall.timeoutOf]
      | holdingRegister =>
        cases ho : env.write address register value 6 <;>
          simp [write_register, hc, hi, hrt, ho, TCall.timeoutOf]
      | discreteInput => simp [write_register, hc, hi, hrt]
      | inputRegister => simp [write_register, hc, hi, hrt]
  · by_cases h1 : (1 ≤ start && start ≤ 247) = true
    · by_cases h2 : (1 ≤ e && e ≤ 247) = true
      · by_cases h3 : start > e
        · simp [scan_devices, hc, h1, h2, h3, hi]
        · constructor
          · simp [scan_devices, hc, h1, h2, h3, hi, scanLoop_timeout]
          · intro c hmem
            simp only [scan_devices, hc, h1, h2, h3] at hmem
            rw [hi] at hmem
            simp at hmem
            have := scanLoop_trace_timeout env
              (List.range' start (e + 1 - start)) { i with timeout := (5 : ℚ)⁻¹ } c hmem
            simpa [one_div] using this
      · simp [scan_devices, hc, h1, h2, hi]
    · simp [scan_devices, hc, h1, hi]

/-- Witness for C9 at a concrete connected client whose serial timeout is
3 s before each operation. -/
theorem C9_timeout_scoping_witness :
    stC9.connected = true
    ∧ stC9.instrument = some instrC9
    ∧ ((((read_register envC9 stC9 1 2 (RTArg.rt .holdingRegister)).2.1).instrument.map
          Instr.timeout = some instrC9.timeout
        ∧ ∀ c ∈ (read_register envC9 stC9 1 2 (RTArg.rt .holdingRegister)).2.2,
            c.timeoutOf = some 1)
      ∧ ((((write_register envC9 stC9 1 2 5 (RTArg.rt .holdingRegister)).2.1).instrument.map
          Instr.timeout = some instrC9.timeout)
        ∧ ∀ c ∈ (write_register envC9 stC9 1 2 5 (RTArg.rt .holdingRegister)).2.2,
            c.timeoutOf = some 1)
      ∧ (((scan_devices envC9 stC9 1 3).2.1).instrument.map Instr.timeout =
          some instrC9.timeout
        ∧ ∀ c ∈ (scan_devices envC9 stC9 1 3).2.2, c.timeoutOf = some (1 / 5))) :=
  ⟨rfl, rfl,
    C9_timeout_scoping envC9 stC9 instrC9 1 2 5 (RTArg.rt .holdingRegister) 1 3 rfl rfl⟩

/- ------------------------------------------------------------------
C3: scan sweep classification.
------------------------------------------------------------------ -/

/-- C3: a scan over an inclusive range on a connected client returns
exactly the addresses of the range whose probe outcome is a successful
read or an invalid (malformed) response — no-response addresses and
addresses failing with any other exception are excluded, the sweep always
continuing — and the returned list is sorted and duplicate-free. -/
theorem C3_scan_classification (env : Env) (s : ClientState) (i : Instr)
    (start e : Nat) (hc : s.connected = true) (hi : s.instrument = some i)
    (h1 : 1 ≤ start) (h2 : start ≤ e) (h3 : e ≤ 247) :
    (scan_devices env s start e).1 =
      Except.ok ((List.range' start (e + 1 - start)).filter
        (fun a => scanIncluded (env.read a 0 4)))
    ∧ (∀ a, a ∈ (List.range' start (e + 1 - start)).filter
          (fun a => scanIncluded (env.read a 0 4)) ↔
        start ≤ a ∧ a ≤ e ∧ scanIncluded (env.read a 0 4) = true)
    ∧ ((List.range' start (e + 1 - start)).filter
        (fun a => scanIncluded (env.read a 0 4))).Sorted (· < ·)
    ∧ ((List.range' start (e + 1 - start)).filter
        (fun a => scanIncluded (env.read a 0 4))).Nodup := by
  have b1 : (1 ≤ start && start ≤ 247) = true := by
    simp only [Bool.and_eq_true, decide_eq_true_eq]; omega
  have b2 : (1 ≤ e && e ≤ 247) = true := by
    simp only [Bool.and_eq_true, decide_eq_true_eq]; omega
  have b3 : ¬ start > e := by omega
  refine ⟨?_, ?_, ?_, ?_⟩
  · simp [scan_devices, hc, b1, b2, b3, hi, scanLoop_found]
  · intro a
    simp only [List.mem_filter, List.mem_range'_1]
    constructor
    · rintro ⟨⟨ha1, ha2⟩, hp⟩
      exact ⟨ha1, by omega, hp⟩
    · rintro ⟨ha1, ha2, hp⟩
      exact ⟨⟨ha1, by omega⟩, hp⟩
  · exact (List.pairwise_lt_range' start (e + 1 - start)).filter _
  · exact (List.nodup_range' start (e + 1 - start)).filter _

/-- Witness for C3 at the spec's scenario: scanning addresses 1–10 against
a link where only address 3 answers validly and address 7 answers with a
malformed frame finds exactly `[3, 7]`. -/
theorem C3_scan_classification_witness :
    stC3.connected = true
    ∧ stC3.instrument = some instrC3
    ∧ (1 ≤ 1 ∧ 1 ≤ 10 ∧ 10 ≤ 247)
    ∧ (List.range' 1 10).filter (fun a => scanIncluded (envC3.read a 0 4)) = [3, 7]
    ∧ (scan_devices envC3 stC3 1 10).1 = Except.ok [3, 7]
    ∧ ((scan_devices envC3 stC3 1 10).1 =
        Except.ok ((List.range' 1 10).filter (fun a => scanIncluded (envC3.read a 0 4)))
      ∧ (∀ a, a ∈ (List.range' 1 10).filter (fun a => scanIncluded (envC3.read a 0 4)) ↔
          1 ≤ a ∧ a ≤ 10 ∧ scanIncluded (envC3.read a 0 4) = true)
      ∧ ((List.range' 1 10).filter (fun a => scanIncluded (envC3.read a 0 4))).Sorted (· < ·)
      ∧ ((List.range' 1 10).filter (fun a => scanIncluded (envC3.read a 0 4))).Nodup) := by
  refine ⟨rfl, rfl, by omega, ?_, ?_, ?_⟩
  · simp [envC3, scanIncluded, List.range']
  · simp [scan_devices, scanLoop, stC3, envC3, instrC3]
  · exact C3_scan_classification envC3 stC3 instrC3 1 10 rfl rfl
      (by omega) (by omega) (by omega)

/- ------------------------------------------------------------------
C4: degraded marking on communication errors.
------------------------------------------------------------------ -/

/-- C4 counterexample: on a connected client, a read and a write whose
transport outcome is an invalid (malformed) response return the error
result but leave `connected` true — the source only clears `connected` on
no-response and unexpected exceptions, so an `InvalidResponseError` does
not mark the link degraded, contrary to the claim. -/
theorem C4_invalid_response_counterexample :
    envC4.read 1 0 4 = Outcome.invalidResponse
    ∧ (read_register envC4 stC4 1 0 (RTArg.rt .inputRegister)).1 = Except.ok none
    ∧ ((read_register envC4 stC4 1 0 (RTArg.rt .inputRegister)).2.1).connected = true
    ∧ envC4.write 1 0 1 6 = Outcome.invalidResponse
    ∧ (write_register envC4 stC4 1 0 1 (RTArg.rt .holdingRegister)).1 = Except.ok false
    ∧ ((write_register envC4 stC4 1 0 1 (RTArg.rt .holdingRegister)).2.1).connected = true := by
  refine ⟨rfl, ?_, ?_, rfl, ?_, ?_⟩ <;>
    simp [read_register, write_register, envC4, stC4, RTArg.convert]

/-- C4 (amended): on a connected client, a read or write whose transport
outcome is no-response or an unexpected exception clears `connected`
(marks the link degraded); an invalid (malformed) response returns the
error result but leaves `connected` unchanged. -/
theorem C4_degraded_marking (env : Env) (s : ClientState) (i : Instr)
    (address register : Nat) (value : Int) (rt : RegisterType)
    (hc : s.connected = true) (hi : s.instrument = some i) :
    ((env.read address register rt.readFunctionCode = .noResponse ∨
        env.read address register rt.readFunctionCode = .otherError) →
      ((read_register env s address register (.rt rt)).2.1).connected = false)
    ∧ (env.read address register rt.readFunctionCode = .invalidResponse →
      ((read_register env s address register (.rt rt)).2.1).connected = true
      ∧ (read_register env s address register (.rt rt)).1 = Except.ok none)
    ∧ ((env.write address register (if value = 0 then 0 else 1) 5 = .noResponse ∨
        env.write address register (if value = 0 then 0 else 1) 5 = .otherError) →
      ((write_register env s address register value (.rt .coil)).2.1).connected = false)
    ∧ (env.write address register (if value = 0 then 0 else 1) 5 = .invalidResponse →
      ((write_register env s address register value (.rt .coil)).2.1).connected = true
      ∧ (write_register env s address register value (.rt .coil)).1 = Except.ok false)
    ∧ ((env.write address register value 6 = .noResponse ∨
        env.write address register value 6 = .otherError) →
      ((write_register env s address register value (.rt .holdingRegister)).2.1).connected = false)
    ∧ (env.write address register value 6 = .invalidResponse →
      ((write_register env s address register value (.rt .holdingRegister)).2.1).connected = true
      ∧ (write_register env s address register value (.rt .holdingRegister)).1 =
          Except.ok false) := by
  refine ⟨?_, ?_, ?_, ?_, ?_, ?_⟩
  · rintro (ho | ho) <;> simp [read_register, hc, hi, ho, RTArg.convert]
  · intro ho; simp [read_register, hc, hi, ho, RTArg.convert]
  · rintro (ho | ho) <;> simp [write_register, hc, hi, ho, RTArg.convert]
  · intro ho; simp [write_register, hc, hi, ho, RTArg.convert]
  · rintro (ho | ho) <;> simp [write_register, hc, hi, ho, RTArg.convert]
  · intro ho; simp [write_register, hc, hi, ho, RTArg.convert]

/-- Witness for C4 (amended) at a concrete connected client on a silent
bus: the no-response read and write clear `connected`. -/
theorem C4_degraded_marking_witness :
    stC4n.connected = true
    ∧ stC4n.instrument = some instrC4n
    ∧ (((envC4n.read 1 0 RegisterType.inputRegister.readFunctionCode = .noResponse ∨
          envC4n.read 1 0 RegisterType.inputRegister.readFunctionCode = .otherError) →
        ((read_register envC4n stC4n 1 0 (.rt .inputRegister)).2.1).connected = false)
      ∧ (envC4n.read 1 0 RegisterType.inputRegister.readFunctionCode = .invalidResponse →
        ((read_register envC4n stC4n 1 0 (.rt .inputRegister)).2.1).connected = true
        ∧ (read_register envC4n stC4n 1 0 (.rt .inputRegister)).1 = Except.ok none)
      ∧ ((envC4n.write 1 0 (if (1 : Int) = 0 then 0 else 1) 5 = .noResponse ∨
          envC4n.write 1 0 (if (1 : Int) = 0 then 0 else 1) 5 = .otherError) →
        ((write_register envC4n stC4n 1 0 1 (.rt .coil)).2.1).connected = false)
      ∧ (envC4n.write 1 0 (if (1 : Int) = 0 then 0 else 1) 5 = .invalidResponse →
        ((write_register envC4n stC4n 1 0 1 (.rt .coil)).2.1).connected = true
        ∧ (write_register envC4n stC4n 1 0 1 (.rt .coil)).1 = Except.ok false)
      ∧ ((envC4n.write 1 0 1 6 = .noResponse ∨ envC4n.write 1 0 1 6 = .otherError) →
        ((write_register envC4n stC4n 1 0 1 (.rt .holdingRegister)).2.1).connected = false)
      ∧ (envC4n.write 1 0 1 6 = .invalidResponse →
        ((write_register envC4n stC4n 1 0 1 (.rt .holdingRegister)).2.1).connected = true
        ∧ (write_register envC4n stC4n 1 0 1 (.rt .holdingRegister)).1 = Except.ok false)) :=
  ⟨rfl, rfl, C4_degraded_marking envC4n stC4n instrC4n 1 0 1 .inputRegister rfl rfl⟩

/- ------------------------------------------------------------------
C5: writes to read-only register types.
------------------------------------------------------------------ -/

/-- C5 counterexample: a write to the read-only input-register type on a
disconnected client is not rejected before any I/O — the
reconnect-if-needed step runs `connect()` first, so the transport spy
records an open and five probe reads, and the connection state changes
from disconnected to connected. -/
theorem C5_write_rejection_counterexample :
    stC5.connected = false
    ∧ (write_register envC5 stC5 1 0 1 (RTArg.rt .inputRegister)).1 = Except.ok false
    ∧ (write_register envC5 stC5 1 0 1 (RTArg.rt .inputRegister)).2.2 =
        [TCall.openPort, TCall.busRead 1 0 4 1, TCall.busRead 2 0 4 1,
          TCall.busRead 3 0 4 1, TCall.busRead 4 0 4 1, TCall.busRead 5 0 4 1]
    ∧ (write_register envC5 stC5 1 0 1 (RTArg.rt .inputRegister)).2.2 ≠ []
    ∧ ((write_register envC5 stC5 1 0 1 (RTArg.rt .inputRegister)).2.1).connected = true := by
  refine ⟨rfl, ?_, ?_, ?_, ?_⟩ <;>
    simp [write_register, connect, probeLoop, envC5, stC5, RTArg.convert]

/-- C5 (amended): on an already-connected client, a write to the
discrete-input or input-register type returns failure without issuing any
transport call, and the connection state and serial timeout are unchanged;
on a disconnected client the reconnect step (with its probe I/O) runs
first, as the counterexample shows. -/
theorem C5_write_readonly_rejected (env : Env) (s : ClientState) (i : Instr)
    (address register : Nat) (value : Int) (rt : RegisterType)
    (hc : s.connected = true) (hi : s.instrument = some i)
    (hro : rt = .discreteInput ∨ rt = .inputRegister) :
    (write_register env s address register value (.rt rt)).1 = Except.ok false
    ∧ (write_register env s address register value (.rt rt)).2.2 = []
    ∧ ((write_register env s address register value (.rt rt)).2.1).connected = true
    ∧ ((write_register env s address register value (.rt rt)).2.1).instrument.map
        Instr.timeout = some i.timeout := by
  rcases hro with h | h <;> subst h <;> simp [write_register, hc, hi, RTArg.convert]

/-- Witness for C5 (amended) at a concrete connected client with prior
timeout 2 s. -/
theorem C5_write_readonly_rejected_witness :
    stC5w.connected = true
    ∧ stC5w.instrument = some instrC5w
    ∧ (RegisterType.inputRegister = RegisterType.discreteInput ∨
        RegisterType.inputRegister = RegisterType.inputRegister)
    ∧ ((write_register envC5w stC5w 1 0 1 (.rt .inputRegister)).1 = Except.ok false
      ∧ (write_register envC5w stC5w 1 0 1 (.rt .inputRegister)).2.2 = []
      ∧ ((write_register envC5w stC5w 1 0 1 (.rt .inputRegister)).2.1).connected = true
      ∧ ((write_register envC5w stC5w 1 0 1 (.rt .inputRegister)).2.1).instrument.map
          Instr.timeout = some instrC5w.timeout) :=
  ⟨rfl, rfl, Or.inr rfl,
    C5_write_readonly_rejected envC5w stC5w instrC5w 1 0 1 .inputRegister rfl rfl (Or.inr rfl)⟩

/- ------------------------------------------------------------------
C6: the connect probe sequence.
------------------------------------------------------------------ -/

/-- C6: on a client that is not already connected, `connect` opens the
port and probes input register 0 with function code 4 against candidate
addresses 1–5 in ascending order, stopping at the first that answers
validly (the bus calls are exactly the reads at `probedAddresses`); whether
or not any candidate answered, the client transitions to connected and
`connect` returns true; it returns false, remaining disconnected, exactly
when opening the transport itself fails. -/
theorem C6_connect (env : Env) (s : ClientState)
    (h : s.connected = false ∨ s.instrument = none) :
    (env.openOk = false →
      (connect env s).1 = false ∧ ((connect env s).2.1).connected = false)
    ∧ (env.openOk = true →
      (connect env s).1 = true ∧ ((connect env s).2.1).connected = true
      ∧ busCalls (connect env s).2.2 =
          (probedAddresses env).map (fun a => TCall.busRead a 0 4 1)) := by
  have hg : (s.connected && s.instrument.isSome) = false := by
    rcases h with h | h <;> simp [h]
  constructor
  · intro ho
    rcases hs : s.instrument with _ | i
    · simp [connect, hg, ho, hs]
    · have hcf : s.connected = false := by
        rcases h with h1 | h1
        · exact h1
        · rw [h1] at hs; cases hs
      simp [connect, hg, ho, hs, hcf]
  · intro ho
    rcases hs : s.instrument with _ | i
    · simp [connect, hg, ho, hs, probeLoop_trace, busCalls_append,
        busCalls_closePort, busCalls_openPort, busCalls_map_busRead,
        busCalls_take_map_busRead, probedAddresses]
    · have hcf : s.connected = false := by
        rcases h with h1 | h1
        · exact h1
        · rw [h1] at hs; cases hs
      simp [connect, hg, ho, hs, hcf, probeLoop_trace, busCalls_append,
        busCalls_closePort, busCalls_openPort, busCalls_map_busRead,
        busCalls_take_map_busRead, probedAddresses]

/-- Witness for C6 on a disconnected client against a bus where address 3
is the first candidate to answer: probing stops there. -/
theorem C6_connect_witness :
    (stC6.connected = false ∨ stC6.instrument = none)
    ∧ probedAddresses envC6 = [1, 2, 3]
    ∧ ((envC6.openOk = false →
        (connect envC6 stC6).1 = false ∧ ((connect envC6 stC6).2.1).connected = false)
      ∧ (envC6.openOk = true →
        (connect envC6 stC6).1 = true ∧ ((connect envC6 stC6).2.1).connected = true
        ∧ busCalls (connect envC6 stC6).2.2 =
            (probedAddresses envC6).map (fun a => TCall.busRead a 0 4 1))) := by
  refine ⟨Or.inl rfl, ?_, C6_connect envC6 stC6 (Or.inl rfl)⟩
  simp [probedAddresses, probeOk, envC6, List.takeWhile, List.dropWhile]

/- ------------------------------------------------------------------
C7: one reading per device per poll cycle.
------------------------------------------------------------------ -/

/-- C7: `read_all_devices` returns exactly one reading per registered
device, keyed and ordered as the registry (insertion order); a reading has
status `erro` precisely when its read failed and carries no value; and when
every reading in the cycle has status `erro`, the all-failed condition
(`allFailed` — the flag of the poller contract, derived from the returned
readings) is true. -/
theorem C7_poll_readings (env : Env) (s : ClientState) :
    ((read_all_devices env s).1).map Prod.fst = s.devices.map Prod.fst
    ∧ (∀ p ∈ (read_all_devices env s).1, p.2.status = Status.erro ↔ p.2.value = none)
    ∧ ((∀ p ∈ (read_all_devices env s).1, p.2.status = Status.erro) →
        allFailed (read_all_devices env s).1 = true) := by
  refine ⟨readAllGo_fst env s.devices s, readAllGo_status env s.devices s, ?_⟩
  intro hall
  simp only [allFailed, List.all_eq_true]
  intro p hp
  simpa using hall p hp

/-- Witness for C7 at the spec's scenario: three registered devices and a
transport failing every call give three readings, all with status `erro`
and no value, and the all-failed condition holds. -/
theorem C7_poll_readings_witness :
    (read_all_devices envC7 stC7).1 =
      [(1, { name := "d1", value := none, unit := "ppm", status := Status.erro }),
        (2, { name := "d2", value := none, unit := "ppm", status := Status.erro }),
        (3, { name := "d3", value := none, unit := "ppm", status := Status.erro })]
    ∧ allFailed (read_all_devices envC7 stC7).1 = true
    ∧ (((read_all_devices envC7 stC7).1).map Prod.fst = stC7.devices.map Prod.fst
      ∧ (∀ p ∈ (read_all_devices envC7 stC7).1,
          p.2.status = Status.erro ↔ p.2.value = none)
      ∧ ((∀ p ∈ (read_all_devices envC7 stC7).1, p.2.status = Status.erro) →
          allFailed (read_all_devices envC7 stC7).1 = true)) := by
  refine ⟨?_, ?_, C7_poll_readings envC7 stC7⟩ <;>
    simp [read_all_devices, readAllGo, read_device, read_register, connect, probeLoop,
      allFailed, envC7, stC7, devC7a, devC7b, devC7c, RTArg.convert]

/- ------------------------------------------------------------------
C10: totality of read_register and write_register.
------------------------------------------------------------------ -/

/-- C10 counterexample: a `register_type` argument that is not a valid
register-type value makes both operations raise — the enum conversion
`RegisterType(register_type)` sits outside the `try` block, so its
`ValueError` propagates to the caller instead of being mapped to the error
result. -/
theorem C10_invalid_type_counterexample :
    RTArg.valid (RTArg.code 7) = false
    ∧ (read_register envC10 stC10 1 0 (RTArg.code 7)).1 = Except.error "ValueError"
    ∧ (write_register envC10 stC10 1 0 1 (RTArg.code 7)).1 = Except.error "ValueError" := by
  refine ⟨rfl, ?_, ?_⟩ <;>
    simp [read_register, write_register, envC10, stC10, RTArg.convert, RegisterType.fromCode]

/-- C10 (amended): for every input whose `register_type` is a valid
register type (an enum member or a code 1–4), `read_register` and
`write_register` are total: every transport failure is caught internally
and mapped to the error result (`none` for reads, `false` for writes), and
no exception propagates. -/
theorem C10_total_on_valid (env : Env) (s : ClientState)
    (address register : Nat) (value : Int) (rta : RTArg)
    (hv : rta.valid = true) :
    (∃ o : Option ℚ, (read_register env s address register rta).1 = Except.ok o)
    ∧ (∃ b : Bool, (write_register env s address register value rta).1 = Except.ok b) := by
  obtain ⟨rt, hrt⟩ : ∃ rt, rta.convert = some rt := by
    cases rta with
    | rt r => exact ⟨r, rfl⟩
    | code n =>
      simpa [RTArg.valid, RTArg.convert, Option.isSome_iff_exists] using hv
  constructor
  · by_cases hcase : (!s.connected || s.instrument.isNone) = true
    · rcases hok : connect env s with ⟨ok, s₁, t₁⟩
      cases ok
      · exact ⟨none, by simp [read_register, hcase, hok]⟩
      · have hins : s₁.instrument.isSome = true := by
          have := connect_instrument_isSome env s (by rw [hok])
          rwa [hok] at this
        obtain ⟨i, hi⟩ := Option.isSome_iff_exists.mp hins
        cases ho : env.read address register rt.readFunctionCode with
        | ok v => exact ⟨some v, by simp [read_register, hcase, hok, hrt, hi, ho]⟩
        | noResponse => exact ⟨none, by simp [read_register, hcase, hok, hrt, hi, ho]⟩
        | invalidResponse => exact ⟨none, by simp [read_register, hcase, hok, hrt, hi, ho]⟩
        | otherError => exact ⟨none, by simp [read_register, hcase, hok, hrt, hi, ho]⟩
    · have hc : s.connected = true := by
        cases hcc : s.connected
        · exact absurd (by simp [hcc]) hcase
        · rfl
      obtain ⟨i, hi⟩ : ∃ i, s.instrument = some i := by
        cases hii : s.instrument
        · exact absurd (by simp [hii]) hcase
        · exact ⟨_, rfl⟩
      cases ho : env.read address register rt.readFunctionCode with
      | ok v => exact ⟨some v, by simp [read_register, hc, hrt, hi, ho]⟩
      | noResponse => exact ⟨none, by simp [read_register, hc, hrt, hi, ho]⟩
      | invalidResponse => exact ⟨none, by simp [read_register, hc, hrt, hi, ho]⟩
      | otherError => exact ⟨none, by simp [read_register, hc, hrt, hi, ho]⟩
  · by_cases hcase : (!s.connected || s.instrument.isNone) = true
    · rcases hok : connect env s with ⟨ok, s₁, t₁⟩
      cases ok
      · exact ⟨false, by simp [write_register, hcase, hok]⟩
      · have hins : s₁.instrument.isSome = true := by
          have := connect_instrument_isSome env s (by rw [hok])
          rwa [hok] at this
        obtain ⟨i, hi⟩ := Option.isSome_iff_exists.mp hins
        cases rt with
        | coil =>
          cases ho : env.write address register (if value = 0 then 0 else 1) 5 with
          | ok v => exact ⟨true, by simp [write_register, hcase, hok, hrt, hi, ho]⟩
          | noResponse => exact ⟨false, by simp [write_register, hcase, hok, hrt, hi, ho]⟩
          | invalidResponse => exact ⟨false, by simp [write_register, hcase, hok, hrt, hi, ho]⟩
          | otherError => exact ⟨false, by simp [write_register, hcase, hok, hrt, hi, ho]⟩
        | holdingRegister =>
          cases ho : env.write address register value 6 with
          | ok v => exact ⟨true, by simp [write_register, hcase, hok, hrt, hi, ho]⟩
          | noResponse => exact ⟨false, by simp [write_register, hcase, hok, hrt, hi, ho]⟩
          | invalidResponse => exact ⟨false, by simp [write_register, hcase, hok, hrt, hi, ho]⟩
          | otherError => exact ⟨false, by simp [write_register, hcase, hok, hrt, hi, ho]⟩
        | discreteInput => exact ⟨false, by simp [write_register, hcase, hok, hrt, hi]⟩
        | inputRegister => exact ⟨false, by simp [write_register, hcase, hok, hrt, hi]⟩
    · have hc : s.connected = true := by
        cases hcc : s.connected
        · exact absurd (by simp [hcc]) hcase
        · rfl
      obtain ⟨i, hi⟩ : ∃ i, s.instrument = some i := by
        cases hii : s.instrument
        · exact absurd (by simp [hii]) hcase
        · exact ⟨_, rfl⟩
      cases rt with
      | coil =>
        cases ho : env.write address register (if value = 0 then 0 else 1) 5 with
        | ok v => exact ⟨true, by simp [write_register, hc, hrt, hi, ho]⟩
        | noResponse => exact ⟨false, by simp [write_register, hc, hrt, hi, ho]⟩
        | invalidResponse => exact ⟨false, by simp [write_register, hc, hrt, hi, ho]⟩
        | otherError => exact ⟨false, by simp [write_register, hc, hrt, hi, ho]⟩
      | holdingRegister =>
        cases ho : env.write address register value 6 with
        | ok v => exact ⟨true, by simp [write_register, hc, hrt, hi, ho]⟩
        | noResponse => exact ⟨false, by simp [write_register, hc, hrt, hi, ho]⟩
        | invalidResponse => exact ⟨false, by simp [write_register, hc, hrt, hi, ho]⟩
        | otherError => exact ⟨false, by simp [write_register, hc, hrt, hi, ho]⟩
      | discreteInput => exact ⟨false, by simp [write_register, hc, hrt, hi]⟩
      | inputRegister => exact ⟨false, by simp [write_register, hc, hrt, hi]⟩

/-- Witness for C10 (amended) at a concrete client, with the register type
passed as the numeric code 3 (holding register). -/
theorem C10_total_on_valid_witness :
    RTArg.valid (RTArg.code 3) = true
    ∧ ((∃ o : Option ℚ, (read_register envC10 stC10 1 0 (RTArg.code 3)).1 = Except.ok o)
      ∧ (∃ b : Bool, (write_register envC10 stC10 1 0 1 (RTArg.code 3)).1 = Except.ok b)) :=
  ⟨rfl, C10_total_on_valid envC10 stC10 1 0 1 (RTArg.code 3) rfl⟩

end Monitor
